import Mathlib

/-!
Verification development for the content-addressed rendering pipeline
in `src/utils.rs` (vim-graphical-preview).

The Rust source is shallowly embedded:
* `hash` — SHA-256 of the UTF-8 bytes, hex-encoded and truncated to 24 chars;
* the error-log scanner inlined in `generate_svg_from_latex` — `parseLatexLog`;
* the staged pipeline `generate_svg_from_latex` / `parse_equation` /
  `generate_latex_from_gnuplot` — explicit state passing over a file-system
  association list plus a `Toolchain` record describing the external tools
  (`latex`, `dvisvgm`, `gnuplot`); invocation counts and an event trace make
  the external effects observable.
-/

namespace Utils

/-! ## String helpers (models of the Rust `str` methods used by the source) -/

/-- Model of Rust `str::starts_with` (character prefix; for valid UTF-8 a
byte prefix is a character prefix). -/
def startsWithStr (s p : String) : Bool :=
  p.data.isPrefixOf s.data

/-- Substring test over character lists, model of Rust `str::contains`. -/
def hasSubList : List Char → List Char → Bool
  | xs, p =>
    if p.isPrefixOf xs then true
    else
      match xs with
      | [] => false
      | _ :: t => hasSubList t p

/-- Model of Rust `str::contains` for a literal pattern. -/
def strContains (s pat : String) : Bool :=
  hasSubList s.data pat.data

/-- Model of Rust `str::strip_prefix`: the remainder after the prefix, if the
prefix is present. -/
def stripPrefixStr (s p : String) : Option String :=
  if p.data.isPrefixOf s.data then some (String.mk (s.data.drop p.data.length))
  else none

/-- Model of Rust `str::split('\n')`: split a character list at every
newline; always yields at least one (possibly empty) piece. -/
def splitOnNL : List Char → List (List Char)
  | [] => [[]]
  | c :: t =>
    let r := splitOnNL t
    if c = '\n' then [] :: r
    else
      match r with
      | [] => [[c]]
      | h :: t2 => (c :: h) :: t2

/-- The lines of a log, as produced by Rust `buf.split('\n')`. -/
def linesOf (buf : String) : List String :=
  (splitOnNL buf.data).map String.mk

/-- Model of Rust `str::splitn(2, ' ')`: split at the first space only;
always yields one or two pieces. -/
def splitn2Aux : List Char → List Char → List String
  | acc, [] => [String.mk acc.reverse]
  | acc, c :: t =>
    if c = ' ' then [String.mk acc.reverse, String.mk t]
    else splitn2Aux (c :: acc) t

/-- Model of Rust `str::splitn(2, ' ')`. -/
def splitn2 (s : String) : List String :=
  splitn2Aux [] s.data

/-- The value of Rust `usize::MAX` on a 64-bit target. -/
def usizeMAX : Nat := 18446744073709551615

/-- Model of Rust `str::parse::<usize>()`: optional leading `+`, at least one
digit, all digits, value within the 64-bit range. -/
def parseUsize (s : String) : Option Nat :=
  let t := match s.data with
    | '+' :: r => r
    | r => r
  if t = [] then none
  else if t.all Char.isDigit then
    let v := t.foldl (fun a c => a * 10 + (c.toNat - 48)) 0
    if v ≤ usizeMAX then some v else none
  else none

/-! ## The content hasher (`hash` in `utils.rs`)

`hash` feeds the UTF-8 bytes of the input to SHA-256, formats the digest as
lowercase hexadecimal and truncates to 24 characters.  SHA-256 itself is the
`sha2` crate; it is embedded here in full (FIPS 180-4), on `Nat` with
explicit reduction modulo `2^32`. -/

/-- UTF-8 encoding of one scalar value, model of Rust `str::as_bytes`. -/
def utf8Bytes (c : Char) : List Nat :=
  let n := c.toNat
  if n < 128 then [n]
  else if n < 2048 then
    [192 ||| (n >>> 6), 128 ||| (n &&& 63)]
  else if n < 65536 then
    [224 ||| (n >>> 12), 128 ||| ((n >>> 6) &&& 63), 128 ||| (n &&& 63)]
  else
    [240 ||| (n >>> 18), 128 ||| ((n >>> 12) &&& 63),
     128 ||| ((n >>> 6) &&& 63), 128 ||| (n &&& 63)]

/-- UTF-8 bytes of a string. -/
def strBytes (s : String) : List Nat :=
  s.data.flatMap utf8Bytes

def M32 : Nat := 4294967296

def rotr32 (x n : Nat) : Nat := ((x >>> n) ||| (x <<< (32 - n))) % M32

def bnot32 (x : Nat) : Nat := x ^^^ 4294967295

def bigSigma0 (x : Nat) : Nat := rotr32 x 2 ^^^ rotr32 x 13 ^^^ rotr32 x 22

def bigSigma1 (x : Nat) : Nat := rotr32 x 6 ^^^ rotr32 x 11 ^^^ rotr32 x 25

def smallSigma0 (x : Nat) : Nat := rotr32 x 7 ^^^ rotr32 x 18 ^^^ (x >>> 3)

def smallSigma1 (x : Nat) : Nat := rotr32 x 17 ^^^ rotr32 x 19 ^^^ (x >>> 10)

def chF (e f g : Nat) : Nat := (e &&& f) ^^^ (bnot32 e &&& g)

def majF (a b c : Nat) : Nat := (a &&& b) ^^^ (a &&& c) ^^^ (b &&& c)

/-- The 64 SHA-256 round constants (decimal). -/
def shaK : List Nat :=
  [1116352408, 1899447441, 3049323471, 3921009573, 961987163, 1508970993,
   2453635748, 2870763221, 3624381080, 310598401, 607225278, 1426881987,
   1925078388, 2162078206, 2614888103, 3248222580, 3835390401, 4022224774,
   264347078, 604807628, 770255983, 1249150122, 1555081692, 1996064986,
   2554220882, 2821834349, 2952996808, 3210313671, 3336571891, 3584528711,
   113926993, 338241895, 666307205, 773529912, 1294757372, 1396182291,
   1695183700, 1986661051, 2177026350, 2456956037, 2730485921, 2820302411,
   3259730800, 3345764771, 3516065817, 3600352804, 4094571909, 275423344,
   430227734, 506948616, 659060556, 883997877, 958139571, 1322822218,
   1537002063, 1747873779, 1955562222, 2024104815, 2227730452, 2361852424,
   2428436474, 2756734187, 3204031479, 3329325298]

/-- A SHA-256 hash state: eight 32-bit words. -/
structure Digest8 where
  h0 : Nat
  h1 : Nat
  h2 : Nat
  h3 : Nat
  h4 : Nat
  h5 : Nat
  h6 : Nat
  h7 : Nat
deriving DecidableEq

/-- The SHA-256 initial hash value (decimal). -/
def shaH0 : Digest8 :=
  ⟨1779033703, 3144134277, 1013904242, 2773480762,
   1359893119, 2600822924, 528734635, 1541459225⟩

/-- The 8-byte big-endian encoding of the message bit length. -/
def lenBytes64 (bitLen : Nat) : List Nat :=
  [(bitLen >>> 56) % 256, (bitLen >>> 48) % 256, (bitLen >>> 40) % 256,
   (bitLen >>> 32) % 256, (bitLen >>> 24) % 256, (bitLen >>> 16) % 256,
   (bitLen >>> 8) % 256, bitLen % 256]

/-- SHA-256 message padding: append `0x80`, zeros to 56 mod 64, then the
64-bit big-endian bit length. -/
def padMsg (msg : List Nat) : List Nat :=
  let len := msg.length
  let k := (119 - len % 64) % 64
  msg ++ [128] ++ List.replicate k 0 ++ lenBytes64 (len * 8)

/-- Group bytes into big-endian 32-bit words. -/
def toWords : List Nat → List Nat
  | a :: b :: c :: d :: t => (((a * 256 + b) * 256 + c) * 256 + d) :: toWords t
  | _ => []

/-- Split a word list into 16-word blocks. -/
def chunks16 (l : List Nat) : List (List Nat) :=
  if h : l = [] then []
  else l.take 16 :: chunks16 (l.drop 16)
termination_by l.length
decreasing_by
  simp only [List.length_drop]
  exact Nat.sub_lt (List.length_pos.mpr h) (by decide)

/-- Extend a 16-word block to the 64-word message schedule. -/
def extendW (w : List Nat) : List Nat :=
  (List.range 48).foldl
    (fun acc _ =>
      let n := acc.length
      acc ++ [(smallSigma1 (acc.getD (n - 2) 0) + acc.getD (n - 7) 0 +
               smallSigma0 (acc.getD (n - 15) 0) + acc.getD (n - 16) 0) % M32])
    w

/-- One SHA-256 round on the working variables. -/
def roundStep (w : List Nat)
    (st : Nat × Nat × Nat × Nat × Nat × Nat × Nat × Nat) (i : Nat) :
    Nat × Nat × Nat × Nat × Nat × Nat × Nat × Nat :=
  let (a, b, c, d, e, f, g, h) := st
  let t1 := (h + bigSigma1 e + chF e f g + shaK.getD i 0 + w.getD i 0) % M32
  let t2 := (bigSigma0 a + majF a b c) % M32
  ((t1 + t2) % M32, a, b, c, (d + t1) % M32, e, f, g)

/-- SHA-256 compression of one 16-word block into the hash state. -/
def compress (d : Digest8) (block : List Nat) : Digest8 :=
  let w := extendW block
  let f := (List.range 64).foldl (roundStep w)
    (d.h0, d.h1, d.h2, d.h3, d.h4, d.h5, d.h6, d.h7)
  ⟨(d.h0 + f.1) % M32, (d.h1 + f.2.1) % M32, (d.h2 + f.2.2.1) % M32,
   (d.h3 + f.2.2.2.1) % M32, (d.h4 + f.2.2.2.2.1) % M32,
   (d.h5 + f.2.2.2.2.2.1) % M32, (d.h6 + f.2.2.2.2.2.2.1) % M32,
   (d.h7 + f.2.2.2.2.2.2.2) % M32⟩

/-- SHA-256 of a byte list. -/
def sha256 (msg : List Nat) : Digest8 :=
  (chunks16 (toWords (padMsg msg))).foldl compress shaH0

/-- The sixteen lowercase hexadecimal digit characters. -/
def hexDigits : List Char :=
  "0123456789abcdef".data

/-- The hex character of a nibble. -/
def nib (n : Nat) : Char := hexDigits.getD (n % 16) '0'

/-- The eight hex characters of one 32-bit word, most significant first. -/
def wordHex (w : Nat) : List Char :=
  [nib (w >>> 28), nib (w >>> 24), nib (w >>> 20), nib (w >>> 16),
   nib (w >>> 12), nib (w >>> 8), nib (w >>> 4), nib w]

/-- The 64 hex characters of a digest, the Rust `format!` with `:x` on the
`sha2` output. -/
def hexOfDigest (d : Digest8) : List Char :=
  wordHex d.h0 ++ wordHex d.h1 ++ wordHex d.h2 ++ wordHex d.h3 ++
  wordHex d.h4 ++ wordHex d.h5 ++ wordHex d.h6 ++ wordHex d.h7

/-- `hash` from `utils.rs`: hex-encoded SHA-256 of the UTF-8 bytes,
truncated to 24 characters. -/
def hash (input : String) : String :=
  String.mk ((hexOfDigest (sha256 (strBytes input))).take 24)

/-! ### Facts about `hash` -/

theorem nib_mem (n : Nat) : nib n ∈ hexDigits := by
  unfold nib
  have h : n % 16 < hexDigits.length := by
    have : n % 16 < 16 := Nat.mod_lt _ (by decide)
    simpa [hexDigits] using this
  rw [List.getD_eq_getElem hexDigits '0' h]
  exact List.getElem_mem h

theorem wordHex_mem (w : Nat) : ∀ c ∈ wordHex w, c ∈ hexDigits := by
  intro c hc
  simp only [wordHex, List.mem_cons, List.not_mem_nil, or_false] at hc
  rcases hc with h | h | h | h | h | h | h | h <;> (subst h; exact nib_mem _)

theorem hexOfDigest_length (d : Digest8) : (hexOfDigest d).length = 64 := by
  simp [hexOfDigest, wordHex]

theorem hexOfDigest_mem (d : Digest8) : ∀ c ∈ hexOfDigest d, c ∈ hexDigits := by
  intro c hc
  simp only [hexOfDigest, List.mem_append] at hc
  rcases hc with ((((((h | h) | h) | h) | h) | h) | h) | h <;>
    exact wordHex_mem _ _ h

/-! ## The error-log scanner inlined in `generate_svg_from_latex`

On a failed compile, the source splits the captured stdout at newlines,
keeps the lines that start with `"! "` or `"l."` and do not contain
`"Emergency stop"`, and folds them into a `(summary, context, line)` triple
starting from `("", "", usize::MAX)`.  Note the fold's second branch strips
the prefix `"1."` (digit one), exactly as the source does. -/

/-- One step of the source's error-log fold. -/
def logStep (err : String × String × Nat) (elm : String) : String × String × Nat :=
  if startsWithStr elm "! " then (elm, err.2.1, err.2.2)
  else
    match stripPrefixStr elm "1." with
    | some elms =>
      let parts := (splitn2 elms).map String.trim
      let n := match parseUsize (parts.getD 0 "") with
        | some v => v
        | none => err.2.2
      let cxt := match parts.get? 1 with
        | some v => v
        | none => err.2.1
      (err.1, cxt, n)
    | none => err

/-- The line filter of the source's error-log scanner. -/
def logLineKept (x : String) : Bool :=
  (startsWithStr x "! " || startsWithStr x "l.") && !(strContains x "Emergency stop")

/-- The error-log scanner: split, filter, fold. -/
def parseLatexLog (buf : String) : String × String × Nat :=
  ((linesOf buf).filter logLineKept).foldl logStep ("", "", usizeMAX)

/-! ## The pipeline state model

Files live in a single artifact store; every path the pipeline touches has
the shape `<store>/<stem>.<ext>`, so a file key is the pair `(stem, ext)`.
The file system is an association list from keys to contents (newest entry
first).  The external tools are a `Toolchain` record: for each tool, whether
`which` finds it, and a function from what the tool reads to its exit
status, captured output and the files it writes (pairs of extension and
content, written beside the input with the same stem). -/

/-- A file key inside the artifact store: `(stem, extension)`. -/
abbrev FKey := String × String

/-- The artifact store contents: newest write first. -/
abbrev FS := List (FKey × String)

def emptyFS : FS := []

/-- Look a key up in the store. -/
def fsLookup : FS → FKey → Option String
  | [], _ => none
  | (q, c) :: t, p => if q = p then some c else fsLookup t p

/-- `Path::exists` on the store. -/
def fsExists (fs : FS) (p : FKey) : Bool :=
  (fsLookup fs p).isSome

/-- Write (create or overwrite) a file. -/
def fsWrite (fs : FS) (p : FKey) (c : String) : FS :=
  (p, c) :: fs

/-- Write every output file of a tool run beside the given stem. -/
def writeAll (fs : FS) (stem : String) (outs : List (String × String)) : FS :=
  outs.foldl (fun f oc => fsWrite f (stem, oc.1) oc.2) fs

/-- What one external tool run yields: exit status, captured streams, and
the files it writes into the working directory (extension, content). -/
structure ToolRes where
  ok : Bool
  stdout : String
  stderr : String
  outFiles : List (String × String)
deriving DecidableEq

/-- The external toolchain: for each binary, whether `which` resolves it,
and the behaviour of a run as a function of what the tool reads. -/
structure Toolchain where
  latexFound : Bool
  /-- behaviour of `latex <stem>.tex`, as a function of the tex file's
  content (`none` when the file is absent) -/
  latexRun : Option String → ToolRes
  dvisvgmFound : Bool
  /-- behaviour of `dvisvgm -b 1 --no-fonts --zoom=<zoom> <stem>.dvi`, as a
  function of the zoom argument and the dvi content -/
  dvisvgmRun : Float → String → ToolRes
  gnuplotFound : Bool

/-- The structured errors of `error.rs` as used by `utils.rs`. -/
inductive Err
  | BinaryNotFound (tool : String)
  | Io
  | InvalidMath (summary context : String) (line : Nat)
  | InvalidDvisvgm (diag : String)
deriving DecidableEq

/-- The outcome of a flow: the returned path, a structured error, or a
process abort (`panic!`). -/
inductive RunRes
  | ok (stem ext : String)
  | err (e : Err)
  | panic (msg : String)
deriving DecidableEq

/-- Observable external events, in order. -/
inductive Ev
  | spawn (tool : String)
  | waitExit (tool : String)
  | writeStdin (tool : String)
  | writeFile (stem ext : String)
deriving DecidableEq

/-- Result of running a flow: outcome, final store, how often each external
tool was invoked, and the event trace. -/
structure RunOut where
  res : RunRes
  fs : FS
  latexCalls : Nat
  dvisvgmCalls : Nat
  trace : List Ev
deriving DecidableEq

/-- The second stage of `generate_svg_from_latex`: convert the dvi to an
svg with `dvisvgm` unless the svg already exists or the dvi is missing.
`lc`/`tr` carry the compiler stage's invocation count and trace. -/
def dviToSvgStage (tc : Toolchain) (fs : FS) (path : FKey) (zoom : Float)
    (lc : Nat) (tr : List Ev) : RunOut :=
  let stem := path.1
  if !(fsExists fs (stem, "svg")) && fsExists fs (stem, "dvi") then
    if tc.dvisvgmFound then
      let r := tc.dvisvgmRun zoom ((fsLookup fs (stem, "dvi")).getD "")
      let fs' := writeAll fs stem r.outFiles
      let tr' := tr ++ [Ev.spawn "dvisvgm", Ev.waitExit "dvisvgm"]
      if !r.ok || strContains r.stderr "error:" then
        ⟨.err (.InvalidDvisvgm r.stderr), fs', lc, 1, tr'⟩
      else ⟨.ok path.1 path.2, fs', lc, 1, tr'⟩
    else ⟨.err (.BinaryNotFound "dvisvgm"), fs, lc, 0, tr⟩
  else ⟨.ok path.1 path.2, fs, lc, 0, tr⟩

/-- `generate_svg_from_latex`: run `latex` on `<stem>.tex` unless
`<stem>.dvi` exists; on compile failure with empty stdout abort the
process, on failure with a log return the parsed `InvalidMath`; then run
the dvi → svg stage; on success return the path given as argument. -/
def generate_svg_from_latex (tc : Toolchain) (fs : FS) (path : FKey)
    (zoom : Float) : RunOut :=
  let stem := path.1
  if !(fsExists fs (stem, "dvi")) then
    if tc.latexFound then
      let r := tc.latexRun (fsLookup fs (stem, "tex"))
      let fs' := writeAll fs stem r.outFiles
      let tr := [Ev.spawn "latex", Ev.waitExit "latex"]
      if r.ok then dviToSvgStage tc fs' path zoom 1 tr
      else if r.stdout = "" then
        ⟨.panic ("Latex exited with `" ++ r.stderr ++ "`"), fs', 1, 0, tr⟩
      else
        let e := parseLatexLog r.stdout
        ⟨.err (.InvalidMath e.1 e.2.1 e.2.2), fs', 1, 0, tr⟩
    else ⟨.err (.BinaryNotFound "latex"), fs, 0, 0, []⟩
  else dviToSvgStage tc fs path zoom 0 []

/-- The standalone document `parse_equation` writes around the fragment. -/
def texTemplate (content : String) : String :=
  "\\documentclass[20pt, preview]\x7bstandalone\x7d\n\\usepackage\x7bamsmath\x7d\\usepackage\x7bamsfonts\x7d\n\\begin\x7bdocument\x7d\n$$\n"
  ++ content ++ "$$\n\\end\x7bdocument\x7d"

/-- `parse_equation`: resolve `<store>/<hash content>.svg`, write the
wrapped tex file if absent, then run `generate_svg_from_latex`. -/
def parse_equation (tc : Toolchain) (fs : FS) (content : String)
    (zoom : Float) : RunOut :=
  let stem := hash content
  if !(fsExists fs (stem, "tex")) then
    let fs' := fsWrite fs (stem, "tex") (texTemplate content)
    let out := generate_svg_from_latex tc fs' (stem, "svg") zoom
    { out with trace := Ev.writeFile stem "tex" :: out.trace }
  else generate_svg_from_latex tc fs (stem, "svg") zoom

/-- Result of the gnuplot stage: outcome, store, trace. -/
structure PlotOut where
  res : RunRes
  fs : FS
  trace : List Ev
deriving DecidableEq

/-- `generate_latex_from_gnuplot`: spawn `gnuplot -p`, write the output
directive, the terminal directive and the script to its stdin, and return
the tex path.  The source never waits for the child, so the function
returns with no `waitExit` event and the store unchanged — the child's own
file writes are not synchronised with the return. -/
def generate_latex_from_gnuplot (tc : Toolchain) (fs : FS)
    (content : String) : PlotOut :=
  let stem := hash content
  if tc.gnuplotFound then
    ⟨.ok stem "tex", fs,
     [Ev.spawn "gnuplot", Ev.writeStdin "gnuplot", Ev.writeStdin "gnuplot",
      Ev.writeStdin "gnuplot"]⟩
  else ⟨.err (.BinaryNotFound "gnuplot"), fs, []⟩

/-- `spawn`/`waitExit` pairing: every spawned child is waited for before
anything else happens — the shape `Command::output()` guarantees. -/
def spawnsPaired : List Ev → Bool
  | [] => true
  | Ev.spawn t :: rest =>
    (match rest with
     | Ev.waitExit t' :: r => t == t' && spawnsPaired r
     | _ => false)
  | _ :: r => spawnsPaired r

/-! ## Helper lemmas about the store -/

theorem fkey_ne_ext {h e1 e2 : String} (hne : e1 ≠ e2) :
    ((h, e1) : FKey) ≠ (h, e2) :=
  fun hc => hne (congrArg Prod.snd hc)

theorem fsExists_writeAll (fs : FS) (stem : String)
    (outs : List (String × String)) (e : String) :
    fsExists (writeAll fs stem outs) (stem, e) = true ↔
      fsExists fs (stem, e) = true ∨ e ∈ outs.map Prod.fst := by
  induction outs generalizing fs with
  | nil => simp [writeAll]
  | cons o t ih =>
    have hw : writeAll fs stem (o :: t) =
        writeAll (fsWrite fs (stem, o.1) o.2) stem t := rfl
    rw [hw, ih]
    by_cases he : o.1 = e
    · subst he
      simp [fsExists, fsWrite, fsLookup]
    · have hne : ((stem, o.1) : FKey) ≠ (stem, e) := fkey_ne_ext he
      have : fsExists (fsWrite fs (stem, o.1) o.2) (stem, e) =
          fsExists fs (stem, e) := by
        simp [fsExists, fsWrite, fsLookup, hne]
      rw [this]
      have hne2 : ¬ e = o.1 := fun hec => he hec.symm
      simp [hne2]

theorem fsLookup_writeAll_not_mem (fs : FS) (stem : String)
    (outs : List (String × String)) (p : FKey)
    (h : ∀ oc ∈ outs, ((stem, oc.1) : FKey) ≠ p) :
    fsLookup (writeAll fs stem outs) p = fsLookup fs p := by
  induction outs generalizing fs with
  | nil => rfl
  | cons o t ih =>
    have hw : writeAll fs stem (o :: t) =
        writeAll (fsWrite fs (stem, o.1) o.2) stem t := rfl
    rw [hw, ih _ (fun oc hoc => h oc (List.mem_cons_of_mem _ hoc))]
    simp [fsWrite, fsLookup, h o (List.mem_cons_self _ _)]

/-! ## Helper lemmas about the error-log scanner -/

theorem logStep_fst_of_not_bang (acc : String × String × Nat) (x : String)
    (hx : ¬ startsWithStr x "! " = true) : (logStep acc x).1 = acc.1 := by
  unfold logStep
  rw [if_neg hx]
  cases stripPrefixStr x "1." <;> simp

theorem foldl_logStep_fst (l : List String) (acc : String × String × Nat) :
    (l.foldl logStep acc).1 =
      (l.filter (fun x => startsWithStr x "! ")).getLastD acc.1 := by
  induction l generalizing acc with
  | nil => rfl
  | cons x t ih =>
    by_cases hx : startsWithStr x "! " = true
    · have h1 : logStep acc x = (x, acc.2.1, acc.2.2) := by
        unfold logStep; rw [if_pos hx]
      have hf : List.filter (fun y => startsWithStr y "! ") (x :: t) =
          x :: List.filter (fun y => startsWithStr y "! ") t := by
        simp [List.filter_cons, hx]
      rw [List.foldl_cons, ih, h1, hf, List.getLastD_cons]
    · have hf : List.filter (fun y => startsWithStr y "! ") (x :: t) =
          List.filter (fun y => startsWithStr y "! ") t := by
        simp [List.filter_cons, hx]
      rw [List.foldl_cons, ih, logStep_fst_of_not_bang acc x hx, hf]

theorem strip1_of_l (x : String) (hx : startsWithStr x "l." = true) :
    stripPrefixStr x "1." = none := by
  unfold startsWithStr at hx
  unfold stripPrefixStr
  rw [if_neg]
  intro hc
  obtain ⟨t1, ht1⟩ := List.isPrefixOf_iff_prefix.mp hc
  obtain ⟨t2, ht2⟩ := List.isPrefixOf_iff_prefix.mp hx
  rw [← ht1] at ht2
  have e1 : ("1." : String).data = ['1', '.'] := rfl
  have e2 : ("l." : String).data = ['l', '.'] := rfl
  rw [e1, e2] at ht2
  simp only [List.cons_append, List.cons.injEq] at ht2
  exact absurd ht2.1 (by decide)

theorem logStep_snd_preserved (acc : String × String × Nat) (x : String)
    (hx : startsWithStr x "! " = true ∨ startsWithStr x "l." = true) :
    (logStep acc x).2 = acc.2 := by
  unfold logStep
  by_cases hb : startsWithStr x "! " = true
  · rw [if_pos hb]
  · rw [if_neg hb]
    rcases hx with h | h
    · exact absurd h hb
    · rw [strip1_of_l x h]

theorem foldl_logStep_snd (l : List String) (acc : String × String × Nat)
    (h : ∀ x ∈ l, startsWithStr x "! " = true ∨ startsWithStr x "l." = true) :
    (l.foldl logStep acc).2 = acc.2 := by
  induction l generalizing acc with
  | nil => rfl
  | cons x t ih =>
    rw [List.foldl_cons,
      ih _ (fun y hy => h y (List.mem_cons_of_mem _ hy)),
      logStep_snd_preserved acc x (h x (List.mem_cons_self _ _))]

/-- The line-number/context capture of the scanner never fires: every kept
line starts with `"! "` or `"l."`, but the capture branch strips the
non-matching prefix `"1."`.  The context is always empty and the line
number always `usize::MAX`. -/
theorem parseLatexLog_snd (buf : String) :
    (parseLatexLog buf).2 = ("", usizeMAX) := by
  unfold parseLatexLog
  rw [foldl_logStep_snd]
  intro x hxm
  have := (List.mem_filter.mp hxm).2
  simp only [logLineKept, Bool.and_eq_true, Bool.or_eq_true] at this
  exact this.1

/-- The summary is the last kept line that starts with `"! "`. -/
theorem parseLatexLog_fst (buf : String) :
    (parseLatexLog buf).1 =
      ((linesOf buf).filter
        (fun x => startsWithStr x "! " && !(strContains x "Emergency stop"))).getLastD "" := by
  unfold parseLatexLog
  rw [foldl_logStep_fst]
  congr 1
  rw [List.filter_filter]
  apply List.filter_congr
  intro x _
  unfold logLineKept
  cases startsWithStr x "! " <;> cases startsWithStr x "l." <;>
    cases strContains x "Emergency stop" <;> rfl

/-! ## Mock toolchains (the spec's "mocked toolchain that always succeeds"
and failure variants) -/

/-- A toolchain on which every stage succeeds: `latex` writes the dvi,
`dvisvgm` writes the svg, both with clean output. -/
def mockTC (dviC svgC : String) : Toolchain where
  latexFound := true
  latexRun := fun _ => ⟨true, "", "", [("dvi", dviC)]⟩
  dvisvgmFound := true
  dvisvgmRun := fun _ _ => ⟨true, "", "", [("svg", svgC)]⟩
  gnuplotFound := true

/-- A toolchain whose compiler fails with the given log on stdout and
writes nothing. -/
def failLatexTC (log : String) : Toolchain where
  latexFound := true
  latexRun := fun _ => ⟨false, log, "", []⟩
  dvisvgmFound := true
  dvisvgmRun := fun _ _ => ⟨true, "", "", []⟩
  gnuplotFound := true

/-- A toolchain whose converter exits 0 but emits the given diagnostic
stream. -/
def diagDvisvgmTC (errStream : String) : Toolchain where
  latexFound := true
  latexRun := fun _ => ⟨true, "", "", [("dvi", "D")]⟩
  dvisvgmFound := true
  dvisvgmRun := fun _ _ => ⟨true, "", errStream, []⟩
  gnuplotFound := true

/-! ## Pipeline lemmas -/

/-- Full evaluation of the equation flow from an empty store under the
always-succeeding mocked toolchain. -/
theorem mock_run_eq (content dviC svgC : String) (zoom : Float) :
    parse_equation (mockTC dviC svgC) emptyFS content zoom =
      ⟨.ok (hash content) "svg",
       [((hash content, "svg"), svgC), ((hash content, "dvi"), dviC),
        ((hash content, "tex"), texTemplate content)],
       1, 1,
       [.writeFile (hash content) "tex", .spawn "latex", .waitExit "latex",
        .spawn "dvisvgm", .waitExit "dvisvgm"]⟩ := by
  have hc : strContains "" "error:" = false := by decide
  simp [parse_equation, generate_svg_from_latex, dviToSvgStage, mockTC,
    emptyFS, fsExists, fsLookup, fsWrite, writeAll, hc]

/-- The first stage never runs when the dvi is cached. -/
theorem dviToSvgStage_latexCalls (tc : Toolchain) (fs : FS) (path : FKey)
    (zoom : Float) (lc : Nat) (tr : List Ev) :
    (dviToSvgStage tc fs path zoom lc tr).latexCalls = lc := by
  simp only [dviToSvgStage]
  split_ifs <;> rfl

/-- The converter stage appends at most its own spawn/wait pair. -/
theorem dviToSvgStage_trace (tc : Toolchain) (fs : FS) (path : FKey)
    (zoom : Float) (lc : Nat) (tr : List Ev) :
    (dviToSvgStage tc fs path zoom lc tr).trace = tr ∨
    (dviToSvgStage tc fs path zoom lc tr).trace =
      tr ++ [Ev.spawn "dvisvgm", Ev.waitExit "dvisvgm"] := by
  simp only [dviToSvgStage]
  split_ifs <;> simp

/-- A successful flow returns exactly the path it was handed. -/
theorem generate_ok_path (tc : Toolchain) (fs : FS) (path : FKey)
    (zoom : Float) (s e : String)
    (h : (generate_svg_from_latex tc fs path zoom).res = .ok s e) :
    s = path.1 ∧ e = path.2 := by
  simp only [generate_svg_from_latex, dviToSvgStage] at h
  split_ifs at h <;> cases h <;> exact ⟨rfl, rfl⟩

/-- When every per-stage output is cached, the whole equation flow is a
no-op returning the vector path. -/
theorem parse_equation_cached (tc : Toolchain) (fs : FS) (content : String)
    (zoom : Float)
    (ht : fsExists fs (hash content, "tex") = true)
    (hd : fsExists fs (hash content, "dvi") = true)
    (hs : fsExists fs (hash content, "svg") = true) :
    parse_equation tc fs content zoom =
      ⟨.ok (hash content) "svg", fs, 0, 0, []⟩ := by
  simp only [parse_equation, generate_svg_from_latex, dviToSvgStage]
  simp [ht, hd, hs]

/-! ## Claims -/

/-- C2: `hash` is a pure total function of the input's UTF-8 bytes — equal
byte content yields the identical key — and the result is always exactly
24 characters, each a lowercase hexadecimal digit: the truncated hex
encoding of the SHA-256 digest of the input's UTF-8 bytes. -/
theorem c2_hash_deterministic_24_hex (a b : String) :
    (strBytes a = strBytes b → hash a = hash b) ∧
    (hash a).length = 24 ∧
    (∀ c ∈ (hash a).data, c ∈ hexDigits) ∧
    hash a = String.mk ((hexOfDigest (sha256 (strBytes a))).take 24) := by
  refine ⟨fun hb => ?_, ?_, ?_, rfl⟩
  · unfold hash
    rw [hb]
  · have h1 : (hash a).length =
        ((hexOfDigest (sha256 (strBytes a))).take 24).length := rfl
    rw [h1, List.length_take, hexOfDigest_length]
    decide
  · intro c hc
    have hc' : c ∈ (hexOfDigest (sha256 (strBytes a))).take 24 := hc
    exact hexOfDigest_mem _ c (List.take_subset 24 _ hc')

/-- Witness for C2 at the spec's example content. -/
theorem c2_witness :
    hash "x^2 + 1" = hash "x^2 + 1" ∧ (hash "x^2 + 1").length = 24 :=
  ⟨(c2_hash_deterministic_24_hex "x^2 + 1" "x^2 + 1").1 rfl,
   (c2_hash_deterministic_24_hex "x^2 + 1" "x^2 + 1").2.1⟩

/-- C6 (code behaviour at the claimed input): on the log
`"! Undefined control sequence\nl.7 \foo"` the scanner returns the summary
but an empty context and line number `usize::MAX` ("unknown") — not
context `"\foo"` and line 7 — because the capture branch strips the prefix
`"1."` (digit one) while the filter admits `"l."` lines; consequently the
context/line-number accumulators are never written on any log. -/
theorem c6_line_capture_dead :
    parseLatexLog "! Undefined control sequence\nl.7 \\foo" =
      ("! Undefined control sequence", "", usizeMAX) ∧
    ∀ buf, (parseLatexLog buf).2 = ("", usizeMAX) :=
  ⟨by decide, parseLatexLog_snd⟩

/-- C7: the scanner's summary is the last line that begins with `"! "` and
does not contain `"Emergency stop"` (later matches overwrite earlier
ones); marker lines are excluded entirely, so a log containing only an
emergency-stop marker yields `("", "", usize::MAX)`. -/
theorem c7_summary_last_error_line :
    (∀ buf, (parseLatexLog buf).1 =
      ((linesOf buf).filter
        (fun x => startsWithStr x "! " &&
          !(strContains x "Emergency stop"))).getLastD "") ∧
    parseLatexLog "! Emergency stop." = ("", "", usizeMAX) :=
  ⟨parseLatexLog_fst, by decide⟩

/-- In both branches of `parse_equation`, the outcome is that of
`generate_svg_from_latex` on the svg path of the content key. -/
theorem parse_equation_res (tc : Toolchain) (fs : FS) (content : String)
    (zoom : Float) :
    ∃ fs0, (parse_equation tc fs content zoom).res =
      (generate_svg_from_latex tc fs0 (hash content, "svg") zoom).res := by
  unfold parse_equation
  by_cases hex : fsExists fs (hash content, "tex") = true
  · exact ⟨fs, by simp [hex]⟩
  · exact ⟨fsWrite fs (hash content, "tex") (texTemplate content),
      by simp [hex]⟩

/-- C1: a successful equation flow returns exactly the store path
`<hash content>.svg`; and under the always-succeeding mocked toolchain at
zoom 1.0 from an empty store the flow succeeds, the vector file is present
at that key, and compiler and converter ran exactly once each. -/
theorem c1_equation_flow_path :
    (∀ tc fs content zoom s e,
      (parse_equation tc fs content zoom).res = .ok s e →
      s = hash content ∧ e = "svg") ∧
    (∀ content dviC svgC,
      (parse_equation (mockTC dviC svgC) emptyFS content 1.0).res =
        .ok (hash content) "svg" ∧
      fsLookup (parse_equation (mockTC dviC svgC) emptyFS content 1.0).fs
        (hash content, "svg") = some svgC ∧
      (parse_equation (mockTC dviC svgC) emptyFS content 1.0).latexCalls = 1 ∧
      (parse_equation (mockTC dviC svgC) emptyFS content 1.0).dvisvgmCalls = 1) := by
  constructor
  · intro tc fs content zoom s e h
    obtain ⟨fs0, hres⟩ := parse_equation_res tc fs content zoom
    rw [hres] at h
    simpa using generate_ok_path tc fs0 (hash content, "svg") zoom s e h
  · intro content dviC svgC
    rw [mock_run_eq]
    refine ⟨rfl, ?_, rfl, rfl⟩
    simp [fsLookup]

/-- Witness for C1 at the spec's example content. -/
theorem c1_witness :
    (parse_equation (mockTC "D" "S") emptyFS "x^2 + 1" 1.0).res =
      .ok (hash "x^2 + 1") "svg" ∧
    hash "x^2 + 1" = hash "x^2 + 1" ∧ ("svg" : String) = "svg" :=
  ⟨(c1_equation_flow_path.2 "x^2 + 1" "D" "S").1,
   c1_equation_flow_path.1 (mockTC "D" "S") emptyFS "x^2 + 1" 1.0
     (hash "x^2 + 1") "svg" (by rw [mock_run_eq])⟩

/-- With the dvi cached, `generate_svg_from_latex` is just the converter
stage. -/
theorem generate_with_dvi (tc : Toolchain) (fs : FS) (path : FKey)
    (zoom : Float) (hdvi : fsExists fs (path.1, "dvi") = true) :
    generate_svg_from_latex tc fs path zoom =
      dviToSvgStage tc fs path zoom 0 [] := by
  simp only [generate_svg_from_latex]
  simp [hdvi]

/-- C4: if at entry to the rendering step the dvi exists and the svg does
not, the compiler stage is skipped entirely — no latex invocation and no
latex spawn in the trace — and only the converter stage runs (exactly one
dvisvgm invocation whenever the converter binary resolves). -/
theorem c4_resume_skips_compiler (tc : Toolchain) (fs : FS) (path : FKey)
    (zoom : Float)
    (hdvi : fsExists fs (path.1, "dvi") = true)
    (hsvg : fsExists fs (path.1, "svg") = false) :
    (generate_svg_from_latex tc fs path zoom).latexCalls = 0 ∧
    Ev.spawn "latex" ∉ (generate_svg_from_latex tc fs path zoom).trace ∧
    (tc.dvisvgmFound = true →
      (generate_svg_from_latex tc fs path zoom).dvisvgmCalls = 1) := by
  rw [generate_with_dvi tc fs path zoom hdvi]
  refine ⟨dviToSvgStage_latexCalls tc fs path zoom 0 [], ?_, ?_⟩
  · rcases dviToSvgStage_trace tc fs path zoom 0 [] with h | h <;> rw [h] <;> simp
  · intro hf
    simp only [dviToSvgStage]
    simp [hsvg, hdvi, hf]
    split_ifs <;> rfl

/-- Witness for C4: a store holding only the dvi. -/
theorem c4_witness :
    (generate_svg_from_latex (mockTC "D" "S") [(("k", "dvi"), "D")]
      ("k", "svg") 1.0).latexCalls = 0 ∧
    Ev.spawn "latex" ∉ (generate_svg_from_latex (mockTC "D" "S")
      [(("k", "dvi"), "D")] ("k", "svg") 1.0).trace ∧
    ((mockTC "D" "S").dvisvgmFound = true →
      (generate_svg_from_latex (mockTC "D" "S") [(("k", "dvi"), "D")]
        ("k", "svg") 1.0).dvisvgmCalls = 1) :=
  c4_resume_skips_compiler (mockTC "D" "S") [(("k", "dvi"), "D")]
    ("k", "svg") 1.0 (by decide) (by decide)

/-- C5: with the dvi cached and the svg absent, the converter stage
succeeds iff dvisvgm exits 0 and its captured stderr does not contain
`"error:"`; in every other case — nonzero exit, or zero exit with the
marker — the flow returns `InvalidDvisvgm` carrying the raw stderr. -/
theorem c5_converter_success_iff (tc : Toolchain) (fs : FS) (path : FKey)
    (zoom : Float)
    (hdvi : fsExists fs (path.1, "dvi") = true)
    (hsvg : fsExists fs (path.1, "svg") = false)
    (hf : tc.dvisvgmFound = true) :
    ((generate_svg_from_latex tc fs path zoom).res = .ok path.1 path.2 ↔
      ((tc.dvisvgmRun zoom ((fsLookup fs (path.1, "dvi")).getD "")).ok = true ∧
       strContains (tc.dvisvgmRun zoom
         ((fsLookup fs (path.1, "dvi")).getD "")).stderr "error:" = false)) ∧
    (((tc.dvisvgmRun zoom ((fsLookup fs (path.1, "dvi")).getD "")).ok = false ∨
      strContains (tc.dvisvgmRun zoom
        ((fsLookup fs (path.1, "dvi")).getD "")).stderr "error:" = true) →
      (generate_svg_from_latex tc fs path zoom).res =
        .err (.InvalidDvisvgm (tc.dvisvgmRun zoom
          ((fsLookup fs (path.1, "dvi")).getD "")).stderr)) := by
  rw [generate_with_dvi tc fs path zoom hdvi]
  simp only [dviToSvgStage]
  simp only [hsvg, hdvi, hf]
  by_cases hok : (tc.dvisvgmRun zoom ((fsLookup fs (path.1, "dvi")).getD "")).ok = true <;>
    by_cases herr : strContains (tc.dvisvgmRun zoom
      ((fsLookup fs (path.1, "dvi")).getD "")).stderr "error:" = true <;>
    simp [hok, herr]

/-- Witness for C5: the spec's embedded-diagnostic scenario — exit 0 with
`"error: font not found"` on stderr must yield `InvalidDvisvgm`. -/
theorem c5_witness :
    ((generate_svg_from_latex (diagDvisvgmTC "error: font not found")
        [(("k", "dvi"), "D")] ("k", "svg") 1.0).res = .ok "k" "svg" ↔
      (((diagDvisvgmTC "error: font not found").dvisvgmRun 1.0 "D").ok = true ∧
       strContains (((diagDvisvgmTC "error: font not found").dvisvgmRun 1.0 "D")).stderr
         "error:" = false)) ∧
    ((((diagDvisvgmTC "error: font not found").dvisvgmRun 1.0 "D").ok = false ∨
      strContains (((diagDvisvgmTC "error: font not found").dvisvgmRun 1.0 "D")).stderr
        "error:" = true) →
      (generate_svg_from_latex (diagDvisvgmTC "error: font not found")
        [(("k", "dvi"), "D")] ("k", "svg") 1.0).res =
        .err (.InvalidDvisvgm "error: font not found")) :=
  c5_converter_success_iff (diagDvisvgmTC "error: font not found")
    [(("k", "dvi"), "D")] ("k", "svg") 1.0 (by decide) (by decide) (by decide)

/-- C9: when the compiler fails, an empty captured stdout aborts the whole
process (`panic!`), and a structured `InvalidMath` is returned exactly
when the failure log is non-empty. -/
theorem c9_empty_log_abort (tc : Toolchain) (fs : FS) (path : FKey)
    (zoom : Float)
    (hdvi : fsExists fs (path.1, "dvi") = false)
    (hfound : tc.latexFound = true)
    (hfail : (tc.latexRun (fsLookup fs (path.1, "tex"))).ok = false) :
    ((tc.latexRun (fsLookup fs (path.1, "tex"))).stdout = "" →
      (generate_svg_from_latex tc fs path zoom).res =
        .panic ("Latex exited with `" ++
          (tc.latexRun (fsLookup fs (path.1, "tex"))).stderr ++ "`")) ∧
    ((tc.latexRun (fsLookup fs (path.1, "tex"))).stdout ≠ "" →
      (generate_svg_from_latex tc fs path zoom).res =
        .err (.InvalidMath
          (parseLatexLog (tc.latexRun (fsLookup fs (path.1, "tex"))).stdout).1
          (parseLatexLog (tc.latexRun (fsLookup fs (path.1, "tex"))).stdout).2.1
          (parseLatexLog (tc.latexRun (fsLookup fs (path.1, "tex"))).stdout).2.2)) := by
  simp only [generate_svg_from_latex]
  simp only [hdvi, hfound, hfail]
  constructor
  · intro hso
    simp [hso, hfail]
  · intro hso
    simp [hso, hfail]

/-- Witness for C9: a failing compiler with a non-empty log yields the
structured typesetting error. -/
theorem c9_witness :
    (((failLatexTC "! Oops").latexRun (fsLookup emptyFS ("k", "tex"))).stdout = "" →
      (generate_svg_from_latex (failLatexTC "! Oops") emptyFS ("k", "svg") 1.0).res =
        .panic ("Latex exited with `" ++
          ((failLatexTC "! Oops").latexRun (fsLookup emptyFS ("k", "tex"))).stderr ++ "`")) ∧
    (((failLatexTC "! Oops").latexRun (fsLookup emptyFS ("k", "tex"))).stdout ≠ "" →
      (generate_svg_from_latex (failLatexTC "! Oops") emptyFS ("k", "svg") 1.0).res =
        .err (.InvalidMath
          (parseLatexLog ((failLatexTC "! Oops").latexRun
            (fsLookup emptyFS ("k", "tex"))).stdout).1
          (parseLatexLog ((failLatexTC "! Oops").latexRun
            (fsLookup emptyFS ("k", "tex"))).stdout).2.1
          (parseLatexLog ((failLatexTC "! Oops").latexRun
            (fsLookup emptyFS ("k", "tex"))).stdout).2.2)) :=
  c9_empty_log_abort (failLatexTC "! Oops") emptyFS ("k", "svg") 1.0
    (by decide) (by decide) (by decide)

/-! ## Branch equations for the flows, used for the idempotence and
frame-effect claims -/

/-- A toolchain is productive when a successful compiler run writes the
dvi and a successful converter run writes the svg (what the real tools
do). -/
def Toolchain.productive (tc : Toolchain) : Prop :=
  (∀ o, (tc.latexRun o).ok = true →
    "dvi" ∈ (tc.latexRun o).outFiles.map Prod.fst) ∧
  (∀ z d, (tc.dvisvgmRun z d).ok = true →
    "svg" ∈ (tc.dvisvgmRun z d).outFiles.map Prod.fst)


theorem generate_latex_runs (tc : Toolchain) (fs : FS) (stem ext : String)
    (zoom : Float) (hdvi : fsExists fs (stem, "dvi") = false)
    (hl : tc.latexFound = true) :
    generate_svg_from_latex tc fs (stem, ext) zoom =
      (if (tc.latexRun (fsLookup fs (stem, "tex"))).ok then
        dviToSvgStage tc
          (writeAll fs stem (tc.latexRun (fsLookup fs (stem, "tex"))).outFiles)
          (stem, ext) zoom 1 [Ev.spawn "latex", Ev.waitExit "latex"]
      else if (tc.latexRun (fsLookup fs (stem, "tex"))).stdout = "" then
        ⟨.panic ("Latex exited with `" ++
            (tc.latexRun (fsLookup fs (stem, "tex"))).stderr ++ "`"),
         writeAll fs stem (tc.latexRun (fsLookup fs (stem, "tex"))).outFiles,
         1, 0, [Ev.spawn "latex", Ev.waitExit "latex"]⟩
      else
        ⟨.err (.InvalidMath
            (parseLatexLog (tc.latexRun (fsLookup fs (stem, "tex"))).stdout).1
            (parseLatexLog (tc.latexRun (fsLookup fs (stem, "tex"))).stdout).2.1
            (parseLatexLog (tc.latexRun (fsLookup fs (stem, "tex"))).stdout).2.2),
         writeAll fs stem (tc.latexRun (fsLookup fs (stem, "tex"))).outFiles,
         1, 0, [Ev.spawn "latex", Ev.waitExit "latex"]⟩) := by
  simp only [generate_svg_from_latex]
  simp [hdvi, hl]

theorem dviToSvgStage_run (tc : Toolchain) (fs : FS) (stem ext : String)
    (zoom : Float) (lc : Nat) (tr : List Ev)
    (hsvg : fsExists fs (stem, "svg") = false)
    (hdvi : fsExists fs (stem, "dvi") = true)
    (hf : tc.dvisvgmFound = true) :
    dviToSvgStage tc fs (stem, ext) zoom lc tr =
      (if !(tc.dvisvgmRun zoom ((fsLookup fs (stem, "dvi")).getD "")).ok ||
          strContains (tc.dvisvgmRun zoom
            ((fsLookup fs (stem, "dvi")).getD "")).stderr "error:" then
        ⟨.err (.InvalidDvisvgm (tc.dvisvgmRun zoom
            ((fsLookup fs (stem, "dvi")).getD "")).stderr),
         writeAll fs stem (tc.dvisvgmRun zoom
            ((fsLookup fs (stem, "dvi")).getD "")).outFiles,
         lc, 1, tr ++ [Ev.spawn "dvisvgm", Ev.waitExit "dvisvgm"]⟩
      else
        ⟨.ok stem ext,
         writeAll fs stem (tc.dvisvgmRun zoom
            ((fsLookup fs (stem, "dvi")).getD "")).outFiles,
         lc, 1, tr ++ [Ev.spawn "dvisvgm", Ev.waitExit "dvisvgm"]⟩) := by
  simp only [dviToSvgStage]
  simp [hsvg, hdvi, hf]

theorem dviToSvgStage_skip (tc : Toolchain) (fs : FS) (stem ext : String)
    (zoom : Float) (lc : Nat) (tr : List Ev)
    (hsvg : fsExists fs (stem, "svg") = true) :
    dviToSvgStage tc fs (stem, ext) zoom lc tr =
      ⟨.ok stem ext, fs, lc, 0, tr⟩ := by
  simp only [dviToSvgStage]
  simp [hsvg]

theorem parse_equation_fresh_parts (tc : Toolchain) (fs : FS)
    (content : String) (zoom : Float)
    (hex : fsExists fs (hash content, "tex") = false) :
    (parse_equation tc fs content zoom).res =
      (generate_svg_from_latex tc
        (fsWrite fs (hash content, "tex") (texTemplate content))
        (hash content, "svg") zoom).res ∧
    (parse_equation tc fs content zoom).fs =
      (generate_svg_from_latex tc
        (fsWrite fs (hash content, "tex") (texTemplate content))
        (hash content, "svg") zoom).fs ∧
    (parse_equation tc fs content zoom).latexCalls =
      (generate_svg_from_latex tc
        (fsWrite fs (hash content, "tex") (texTemplate content))
        (hash content, "svg") zoom).latexCalls ∧
    (parse_equation tc fs content zoom).dvisvgmCalls =
      (generate_svg_from_latex tc
        (fsWrite fs (hash content, "tex") (texTemplate content))
        (hash content, "svg") zoom).dvisvgmCalls ∧
    (parse_equation tc fs content zoom).trace =
      Ev.writeFile (hash content) "tex" ::
        (generate_svg_from_latex tc
          (fsWrite fs (hash content, "tex") (texTemplate content))
          (hash content, "svg") zoom).trace := by
  simp only [parse_equation]
  simp [hex]

theorem parse_equation_cachedTex (tc : Toolchain) (fs : FS)
    (content : String) (zoom : Float)
    (hex : fsExists fs (hash content, "tex") = true) :
    parse_equation tc fs content zoom =
      generate_svg_from_latex tc fs (hash content, "svg") zoom := by
  simp only [parse_equation]
  simp [hex]

/-- A successful equation-flow run from an empty store with a productive
toolchain leaves tex, dvi and svg cached, returns the vector path, and
invoked each tool at most once (the compiler exactly once). -/
theorem parse_equation_fresh_success (tc : Toolchain) (content : String)
    (zoom : Float) (hl : tc.latexFound = true) (hd : tc.dvisvgmFound = true)
    (hp : tc.productive) (s e : String)
    (h1 : (parse_equation tc emptyFS content zoom).res = .ok s e) :
    (parse_equation tc emptyFS content zoom).res = .ok (hash content) "svg" ∧
    fsExists (parse_equation tc emptyFS content zoom).fs
      (hash content, "tex") = true ∧
    fsExists (parse_equation tc emptyFS content zoom).fs
      (hash content, "dvi") = true ∧
    fsExists (parse_equation tc emptyFS content zoom).fs
      (hash content, "svg") = true ∧
    (parse_equation tc emptyFS content zoom).latexCalls = 1 ∧
    (parse_equation tc emptyFS content zoom).dvisvgmCalls ≤ 1 := by
  have hex0 : fsExists emptyFS (hash content, "tex") = false := rfl
  obtain ⟨hres, hfs, hlat, hdvic, _⟩ :=
    parse_equation_fresh_parts tc emptyFS content zoom hex0
  rw [hres] at h1
  rw [hres, hfs, hlat, hdvic]
  have hT1 : fsLookup (fsWrite emptyFS (hash content, "tex")
      (texTemplate content)) (hash content, "tex") = some (texTemplate content) := by
    simp [fsWrite, fsLookup]
  have hD1 : fsExists (fsWrite emptyFS (hash content, "tex")
      (texTemplate content)) (hash content, "dvi") = false := by
    simp [fsWrite, fsLookup, fsExists, emptyFS]
  rw [generate_latex_runs tc _ (hash content) "svg" zoom hD1 hl, hT1] at h1 ⊢
  by_cases hok : (tc.latexRun (some (texTemplate content))).ok = true
  · rw [if_pos hok] at h1 ⊢
    set fs2 := writeAll (fsWrite emptyFS (hash content, "tex")
      (texTemplate content)) (hash content)
      (tc.latexRun (some (texTemplate content))).outFiles with hfs2
    have hT2 : fsExists fs2 (hash content, "tex") = true :=
      (fsExists_writeAll _ _ _ _).mpr (Or.inl (by simp [fsWrite, fsLookup, fsExists]))
    have hD2 : fsExists fs2 (hash content, "dvi") = true :=
      (fsExists_writeAll _ _ _ _).mpr (Or.inr (hp.1 _ hok))
    by_cases hsvg : fsExists fs2 (hash content, "svg") = true
    · rw [dviToSvgStage_skip tc _ (hash content) "svg" zoom 1 _ hsvg] at h1 ⊢
      exact ⟨rfl, hT2, hD2, hsvg, rfl, Nat.zero_le 1⟩
    · have hsvg' : fsExists fs2 (hash content, "svg") = false := by
        cases hx : fsExists fs2 (hash content, "svg")
        · rfl
        · exact absurd hx hsvg
      rw [dviToSvgStage_run tc _ (hash content) "svg" zoom 1 _ hsvg' hD2 hd] at h1 ⊢
      by_cases hc : (!(tc.dvisvgmRun zoom ((fsLookup fs2 (hash content, "dvi")).getD "")).ok ||
          strContains (tc.dvisvgmRun zoom
            ((fsLookup fs2 (hash content, "dvi")).getD "")).stderr "error:") = true
      · rw [if_pos hc] at h1
        exact absurd h1 (by simp)
      · rw [if_neg hc] at h1 ⊢
        have hok2 : (tc.dvisvgmRun zoom
            ((fsLookup fs2 (hash content, "dvi")).getD "")).ok = true := by
          cases hx : (tc.dvisvgmRun zoom
              ((fsLookup fs2 (hash content, "dvi")).getD "")).ok
          · exact absurd (by simp [hx]) hc
          · rfl
        have hT3 : fsExists (writeAll fs2 (hash content)
            (tc.dvisvgmRun zoom ((fsLookup fs2 (hash content, "dvi")).getD "")).outFiles)
            (hash content, "tex") = true :=
          (fsExists_writeAll _ _ _ _).mpr (Or.inl hT2)
        have hD3 : fsExists (writeAll fs2 (hash content)
            (tc.dvisvgmRun zoom ((fsLookup fs2 (hash content, "dvi")).getD "")).outFiles)
            (hash content, "dvi") = true :=
          (fsExists_writeAll _ _ _ _).mpr (Or.inl hD2)
        have hS3 : fsExists (writeAll fs2 (hash content)
            (tc.dvisvgmRun zoom ((fsLookup fs2 (hash content, "dvi")).getD "")).outFiles)
            (hash content, "svg") = true :=
          (fsExists_writeAll _ _ _ _).mpr (Or.inr (hp.2 _ _ hok2))
        exact ⟨rfl, hT3, hD3, hS3, rfl, Nat.le_refl 1⟩
  · have hok' : (tc.latexRun (some (texTemplate content))).ok = false := by
      cases hx : (tc.latexRun (some (texTemplate content))).ok
      · rfl
      · exact absurd hx hok
    rw [hok'] at h1
    by_cases hso : (tc.latexRun (some (texTemplate content))).stdout = ""
    · rw [if_neg (by simp), if_pos hso] at h1
      exact absurd h1 (by simp)
    · rw [if_neg (by simp), if_neg hso] at h1
      exact absurd h1 (by simp)

/-- C3: after a successful equation-flow run from an empty store, a second
run with the same content makes no tool invocation at all — every stage's
output exists and is its cache marker — returns the same vector path, and
across both calls compiler and converter ran at most once each. -/
theorem c3_equation_flow_idempotent (tc : Toolchain) (content : String)
    (zoom : Float) (hl : tc.latexFound = true) (hd : tc.dvisvgmFound = true)
    (hp : tc.productive) (s e : String)
    (h1 : (parse_equation tc emptyFS content zoom).res = .ok s e) :
    (parse_equation tc (parse_equation tc emptyFS content zoom).fs
      content zoom).latexCalls = 0 ∧
    (parse_equation tc (parse_equation tc emptyFS content zoom).fs
      content zoom).dvisvgmCalls = 0 ∧
    (parse_equation tc (parse_equation tc emptyFS content zoom).fs
      content zoom).res = (parse_equation tc emptyFS content zoom).res ∧
    (parse_equation tc emptyFS content zoom).latexCalls +
      (parse_equation tc (parse_equation tc emptyFS content zoom).fs
        content zoom).latexCalls ≤ 1 ∧
    (parse_equation tc emptyFS content zoom).dvisvgmCalls +
      (parse_equation tc (parse_equation tc emptyFS content zoom).fs
        content zoom).dvisvgmCalls ≤ 1 := by
  obtain ⟨hres, hT, hD, hS, hlat, hdvic⟩ :=
    parse_equation_fresh_success tc content zoom hl hd hp s e h1
  rw [parse_equation_cached tc (parse_equation tc emptyFS content zoom).fs
    content zoom hT hD hS]
  refine ⟨rfl, rfl, hres.symm, ?_, ?_⟩
  · simp [hlat]
  · simpa using hdvic

/-- Witness for C3 under the mocked toolchain. -/
theorem c3_witness :
    (parse_equation (mockTC "D" "S")
      (parse_equation (mockTC "D" "S") emptyFS "x^2 + 1" 1.0).fs
      "x^2 + 1" 1.0).latexCalls = 0 ∧
    (parse_equation (mockTC "D" "S")
      (parse_equation (mockTC "D" "S") emptyFS "x^2 + 1" 1.0).fs
      "x^2 + 1" 1.0).dvisvgmCalls = 0 ∧
    (parse_equation (mockTC "D" "S")
      (parse_equation (mockTC "D" "S") emptyFS "x^2 + 1" 1.0).fs
      "x^2 + 1" 1.0).res =
      (parse_equation (mockTC "D" "S") emptyFS "x^2 + 1" 1.0).res ∧
    (parse_equation (mockTC "D" "S") emptyFS "x^2 + 1" 1.0).latexCalls +
      (parse_equation (mockTC "D" "S")
        (parse_equation (mockTC "D" "S") emptyFS "x^2 + 1" 1.0).fs
        "x^2 + 1" 1.0).latexCalls ≤ 1 ∧
    (parse_equation (mockTC "D" "S") emptyFS "x^2 + 1" 1.0).dvisvgmCalls +
      (parse_equation (mockTC "D" "S")
        (parse_equation (mockTC "D" "S") emptyFS "x^2 + 1" 1.0).fs
        "x^2 + 1" 1.0).dvisvgmCalls ≤ 1 :=
  c3_equation_flow_idempotent (mockTC "D" "S") "x^2 + 1" 1.0 rfl rfl
    ⟨fun o ho => by simp [mockTC], fun z d hz => by simp [mockTC]⟩
    (hash "x^2 + 1") "svg" (by rw [mock_run_eq])

/-- C10: a typesetting failure does not roll back the tex written in the
same call — the source file stays in the store and the write event is in
the first call's trace — and a second call with the same content performs
no source write and invokes the compiler again. -/
theorem c10_error_keeps_tex (tc : Toolchain) (content : String)
    (zoom : Float) (hl : tc.latexFound = true)
    (hfail : (tc.latexRun (some (texTemplate content))).ok = false)
    (hlog : (tc.latexRun (some (texTemplate content))).stdout ≠ "")
    (hnoDvi : "dvi" ∉
      (tc.latexRun (some (texTemplate content))).outFiles.map Prod.fst) :
    (parse_equation tc emptyFS content zoom).res =
      .err (.InvalidMath
        (parseLatexLog (tc.latexRun (some (texTemplate content))).stdout).1
        (parseLatexLog (tc.latexRun (some (texTemplate content))).stdout).2.1
        (parseLatexLog (tc.latexRun (some (texTemplate content))).stdout).2.2) ∧
    fsExists (parse_equation tc emptyFS content zoom).fs
      (hash content, "tex") = true ∧
    Ev.writeFile (hash content) "tex" ∈
      (parse_equation tc emptyFS content zoom).trace ∧
    Ev.writeFile (hash content) "tex" ∉
      (parse_equation tc (parse_equation tc emptyFS content zoom).fs
        content zoom).trace ∧
    (parse_equation tc (parse_equation tc emptyFS content zoom).fs
      content zoom).latexCalls = 1 := by
  have hex0 : fsExists emptyFS (hash content, "tex") = false := rfl
  obtain ⟨hres, hfs, _, _, htr⟩ :=
    parse_equation_fresh_parts tc emptyFS content zoom hex0
  have hT1 : fsLookup (fsWrite emptyFS (hash content, "tex")
      (texTemplate content)) (hash content, "tex") =
      some (texTemplate content) := by
    simp [fsWrite, fsLookup]
  have hD1 : fsExists (fsWrite emptyFS (hash content, "tex")
      (texTemplate content)) (hash content, "dvi") = false := by
    simp [fsWrite, fsLookup, fsExists, emptyFS]
  have hG : generate_svg_from_latex tc
      (fsWrite emptyFS (hash content, "tex") (texTemplate content))
      (hash content, "svg") zoom =
      ⟨.err (.InvalidMath
          (parseLatexLog (tc.latexRun (some (texTemplate content))).stdout).1
          (parseLatexLog (tc.latexRun (some (texTemplate content))).stdout).2.1
          (parseLatexLog (tc.latexRun (some (texTemplate content))).stdout).2.2),
        writeAll (fsWrite emptyFS (hash content, "tex") (texTemplate content))
          (hash content) (tc.latexRun (some (texTemplate content))).outFiles,
        1, 0, [Ev.spawn "latex", Ev.waitExit "latex"]⟩ := by
    rw [generate_latex_runs tc _ (hash content) "svg" zoom hD1 hl, hT1, hfail]
    simp [hlog]
  have hT2 : fsExists (parse_equation tc emptyFS content zoom).fs
      (hash content, "tex") = true := by
    rw [hfs, hG]
    exact (fsExists_writeAll _ _ _ _).mpr
      (Or.inl (by simp [fsWrite, fsLookup, fsExists]))
  have hD2 : fsExists (parse_equation tc emptyFS content zoom).fs
      (hash content, "dvi") = false := by
    rw [hfs, hG, Bool.eq_false_iff]
    intro hx
    rcases (fsExists_writeAll _ _ _ _).mp hx with h | h
    · simp [hD1] at h
    · exact hnoDvi h
  refine ⟨by rw [hres, hG], hT2, by rw [htr]; exact List.mem_cons_self _ _, ?_, ?_⟩
  · rw [parse_equation_cachedTex tc _ content zoom hT2,
      generate_latex_runs tc _ (hash content) "svg" zoom hD2 hl]
    split_ifs
    · rcases dviToSvgStage_trace tc _ (hash content, "svg") zoom 1
        [Ev.spawn "latex", Ev.waitExit "latex"] with h | h <;> rw [h] <;> simp
    · simp
    · simp
  · rw [parse_equation_cachedTex tc _ content zoom hT2,
      generate_latex_runs tc _ (hash content) "svg" zoom hD2 hl]
    split_ifs
    · exact dviToSvgStage_latexCalls _ _ _ _ _ _
    · rfl
    · rfl

/-- Witness for C10: compiler fails with the log `"! Oops"` and writes
nothing. -/
theorem c10_witness :
    (parse_equation (failLatexTC "! Oops") emptyFS "x^2 + 1" 1.0).res =
      .err (.InvalidMath
        (parseLatexLog ((failLatexTC "! Oops").latexRun
          (some (texTemplate "x^2 + 1"))).stdout).1
        (parseLatexLog ((failLatexTC "! Oops").latexRun
          (some (texTemplate "x^2 + 1"))).stdout).2.1
        (parseLatexLog ((failLatexTC "! Oops").latexRun
          (some (texTemplate "x^2 + 1"))).stdout).2.2) ∧
    fsExists (parse_equation (failLatexTC "! Oops") emptyFS "x^2 + 1" 1.0).fs
      (hash "x^2 + 1", "tex") = true ∧
    Ev.writeFile (hash "x^2 + 1") "tex" ∈
      (parse_equation (failLatexTC "! Oops") emptyFS "x^2 + 1" 1.0).trace ∧
    Ev.writeFile (hash "x^2 + 1") "tex" ∉
      (parse_equation (failLatexTC "! Oops")
        (parse_equation (failLatexTC "! Oops") emptyFS "x^2 + 1" 1.0).fs
        "x^2 + 1" 1.0).trace ∧
    (parse_equation (failLatexTC "! Oops")
      (parse_equation (failLatexTC "! Oops") emptyFS "x^2 + 1" 1.0).fs
      "x^2 + 1" 1.0).latexCalls = 1 :=
  c10_error_keeps_tex (failLatexTC "! Oops") "x^2 + 1" 1.0 rfl rfl
    (by decide) (by simp [failLatexTC])

/-- `writeFile` events pass through the pairing check. -/
theorem spawnsPaired_cons_writeFile (s e : String) (tr : List Ev) :
    spawnsPaired (Ev.writeFile s e :: tr) = spawnsPaired tr := rfl

/-- Every trace of the svg-generation step pairs each spawn with an
immediate wait — both tools run through `Command::output()`. -/
theorem generate_trace_paired (tc : Toolchain) (fs : FS) (path : FKey)
    (zoom : Float) :
    spawnsPaired (generate_svg_from_latex tc fs path zoom).trace = true := by
  simp only [generate_svg_from_latex, dviToSvgStage]
  split_ifs <;> rfl

/-- The equation flow's traces are likewise paired. -/
theorem parse_equation_trace_paired (tc : Toolchain) (fs : FS)
    (content : String) (zoom : Float) :
    spawnsPaired (parse_equation tc fs content zoom).trace = true := by
  by_cases hex : fsExists fs (hash content, "tex") = true
  · rw [parse_equation_cachedTex tc fs content zoom hex]
    exact generate_trace_paired tc fs _ zoom
  · have hex' : fsExists fs (hash content, "tex") = false := by
      cases hx : fsExists fs (hash content, "tex")
      · rfl
      · exact absurd hx hex
    obtain ⟨_, _, _, _, htr⟩ := parse_equation_fresh_parts tc fs content zoom hex'
    rw [htr, spawnsPaired_cons_writeFile]
    exact generate_trace_paired tc _ _ zoom

/-- C8 counterexample: the plot flow returns its artifact path although the
spawned plotting tool has not been waited for — its trace holds a spawn
with no matching wait. -/
theorem c8_counterexample :
    (generate_latex_from_gnuplot (mockTC "D" "S") emptyFS "plot sin(x)").res =
      .ok (hash "plot sin(x)") "tex" ∧
    Ev.spawn "gnuplot" ∈
      (generate_latex_from_gnuplot (mockTC "D" "S") emptyFS "plot sin(x)").trace ∧
    Ev.waitExit "gnuplot" ∉
      (generate_latex_from_gnuplot (mockTC "D" "S") emptyFS "plot sin(x)").trace := by
  refine ⟨rfl, ?_, ?_⟩ <;> simp [generate_latex_from_gnuplot, mockTC]

/-- C8 (amended): compiler and converter invocations block until the child
exits — every spawn in the equation-flow traces is immediately followed by
its wait — but the plot flow spawns the plotting tool, writes its stdin and
returns the tex path without ever waiting. -/
theorem c8_sync_amended :
    (∀ tc fs path zoom,
      spawnsPaired (generate_svg_from_latex tc fs path zoom).trace = true) ∧
    (∀ tc fs content zoom,
      spawnsPaired (parse_equation tc fs content zoom).trace = true) ∧
    (∀ tc fs content, tc.gnuplotFound = true →
      (generate_latex_from_gnuplot tc fs content).res = .ok (hash content) "tex" ∧
      (generate_latex_from_gnuplot tc fs content).trace =
        [Ev.spawn "gnuplot", Ev.writeStdin "gnuplot", Ev.writeStdin "gnuplot",
         Ev.writeStdin "gnuplot"]) := by
  refine ⟨generate_trace_paired, parse_equation_trace_paired, ?_⟩
  intro tc fs content hg
  simp [generate_latex_from_gnuplot, hg]

/-- Witness for C8 (amended). -/
theorem c8_witness :
    spawnsPaired (generate_svg_from_latex (mockTC "D" "S") emptyFS
      ("k", "svg") 1.0).trace = true ∧
    (generate_latex_from_gnuplot (mockTC "D" "S") emptyFS "plot x").trace =
      [Ev.spawn "gnuplot", Ev.writeStdin "gnuplot", Ev.writeStdin "gnuplot",
       Ev.writeStdin "gnuplot"] :=
  ⟨c8_sync_amended.1 (mockTC "D" "S") emptyFS ("k", "svg") 1.0,
   (c8_sync_amended.2.2 (mockTC "D" "S") emptyFS "plot x" rfl).2⟩

end Utils
